import Mathlib

/-!
Shallow embedding of the signal-fusion pipeline of the A-share investment
agent: the thesis builders (src/agents/researcher_bull.py,
src/agents/researcher_bear.py), the debate engine (src/agents/debate_room.py),
the risk engine (src/agents/risk_manager.py) and the decision engine
(src/agents/portfolio_manager.py).  Money, prices and confidences are
modelled as rationals; Python `int()` truncation and `//` floor division are
modelled exactly; the square root used by the volatility statistics is a
parameter of the risk definitions (theorems only use that it maps 0 to 0).
-/

/-- Python `int(q)`: truncation of a rational toward zero. -/
def pyInt (q : ℚ) : ℤ := if 0 ≤ q then ⌊q⌋ else -⌊-q⌋

/-- Python `(n // 100) * 100`: quantization to a whole number of 100-share lots
(`//` is floor division). -/
def lotQuant (n : ℤ) : ℤ := (Int.fdiv n 100) * 100

/-- The `max_shares` computation of `portfolio_management_agent`
(portfolio_manager.py lines 50-66): the risk ceiling and the cash ceiling are
each converted to shares, truncated, quantized to lots, and the minimum is
taken.  A non-positive price yields 0 shares. -/
def max_shares_json (max_position_size cash current_price : ℚ) : ℤ :=
  let max_shares_raw : ℤ :=
    if 0 < current_price then pyInt (max_position_size / current_price) else 0
  let max_shares : ℤ := lotQuant max_shares_raw
  let max_shares_by_cash_raw : ℤ :=
    if 0 < current_price then pyInt (cash / current_price) else 0
  let max_shares_by_cash : ℤ := lotQuant max_shares_by_cash_raw
  min max_shares max_shares_by_cash

/-- The completion-service reply as consumed by the decision parser
(portfolio_manager.py lines 214-275): either the reply parsed as JSON with the
fields the code reads, or — when `json.loads` fails — the features of the raw
text that the fallback path inspects: whether the lowercased text contains
"buy" (checked first) or "sell", and the first integer matched by the
quantity regex, if any. -/
inductive LLMReply where
  | parsedJson (action : String) (quantity : ℤ) (confidence : ℚ)
  | rawText (hasBuy : Bool) (hasSell : Bool) (quantityMatch : Option ℕ)
deriving DecidableEq

/-- The decision extracted by `portfolio_management_agent`.  In the raw-text
fallback path the Python variable `confidence` is never assigned, modelled as
`none`. -/
structure Decision where
  action : String
  quantity : ℤ
  confidence : Option ℚ
deriving DecidableEq

/-- Lot normalization of a requested quantity (portfolio_manager.py lines
220-223): a positive quantity is floored to a multiple of 100, and a positive
quantity below one lot is promoted to exactly one lot. -/
def normalizeQuantity (quantity : ℤ) : ℤ :=
  if 0 < quantity then
    let q := lotQuant quantity
    if q = 0 then 100 else q
  else quantity

/-- Python `str.lower()`, character by character (executable form of
`String.toLower`). -/
def strToLower (s : String) : String := ⟨s.data.map Char.toLower⟩

/-- Decision extraction from the completion reply (portfolio_manager.py lines
214-275).  JSON path: lowercase the action, normalize the quantity, cap buys
at `max_shares` and sells at the held stock, and re-quantize.  Raw-text path:
"buy" takes precedence over "sell"; a matched buy quantity is quantized (with
sub-lot promotion) but not capped; a matched sell quantity is capped at the
held stock then quantized; with no match a buy uses `max_shares` and a sell
liquidates the (quantized) position. -/
def parse_decision (max_shares stock : ℤ) (reply : LLMReply) : Decision :=
  match reply with
  | .parsedJson a q _c =>
      let action := strToLower a
      let q1 := normalizeQuantity q
      let q2 :=
        if action = "buy" then (if max_shares < q1 then max_shares else q1)
        else if action = "sell" then (if stock < q1 then stock else q1)
        else q1
      ⟨action, lotQuant q2, some _c⟩
  | .rawText hasBuy hasSell quantityMatch =>
      if hasBuy then
        match quantityMatch with
        | some m =>
            let q := lotQuant (m : ℤ)
            ⟨"buy", if q = 0 ∧ 0 < m then 100 else q, none⟩
        | none => ⟨"buy", max_shares, none⟩
      else if hasSell then
        match quantityMatch with
        | some m => ⟨"sell", lotQuant (min (m : ℤ) stock), none⟩
        | none => ⟨"sell", lotQuant stock, none⟩
      else ⟨"hold", 0, none⟩

/-- `portfolio_management_agent`'s final decision given the completion result:
when the call failed (returned `None`, portfolio_manager.py lines 176-210) the
hard-coded conservative JSON `{action: hold, quantity: 0, confidence: 0.7}` is
substituted and parsed. -/
def portfolio_decision (max_shares stock : ℤ) (result : Option LLMReply) : Decision :=
  match result with
  | none => parse_decision max_shares stock (.parsedJson "hold" 0 (7/10))
  | some r => parse_decision max_shares stock r

/-- The LLM weight of `debate_room_agent` (debate_room.py line 172). -/
def llm_weight : ℚ := 3/10

/-- Clamping of the third-party score into [-1, 1] (debate_room.py line 153);
a missing or unparsed score defaults to 0. -/
def clamp_llm_score (s : ℚ) : ℚ := max (min s 1) (-1)

/-- The debate conclusion (debate_room.py lines 167-214). -/
structure DebateResult where
  signal : String
  confidence : ℚ
  confidence_diff : ℚ
  mixed_confidence_diff : ℚ
deriving DecidableEq

/-- `debate_room_agent`'s reconciliation of the two theses and the external
score (debate_room.py lines 167-198). -/
def debate_mix (bull_confidence bear_confidence llm_score : ℚ) : DebateResult :=
  let confidence_diff := bull_confidence - bear_confidence
  let mixed_confidence_diff :=
    (1 - llm_weight) * confidence_diff + llm_weight * llm_score
  if |mixed_confidence_diff| < 1/10 then
    ⟨"neutral", max bull_confidence bear_confidence, confidence_diff, mixed_confidence_diff⟩
  else if 0 < mixed_confidence_diff then
    ⟨"bullish", bull_confidence, confidence_diff, mixed_confidence_diff⟩
  else
    ⟨"bearish", bear_confidence, confidence_diff, mixed_confidence_diff⟩

/-- An analyst signal as read by the researchers: a direction string and the
confidence it carries (the upstream agents encode the confidence as a percent
string such as "67%"; the researchers recover the fraction via
`float(str(c).replace("%", "")) / 100`, modelled here by the rational the
string denotes). -/
structure Signal where
  signal : String
  confidence : ℚ
deriving DecidableEq

/-- A one-sided thesis (researcher_bull.py / researcher_bear.py). -/
structure Thesis where
  perspective : String
  confidence : ℚ
  thesis_points : List String
deriving DecidableEq

/-- `researcher_bull_agent` (researcher_bull.py lines 52-122): each of the four
signals contributes one point; a signal matching the bullish stance contributes
its own confidence, any other signal contributes the fixed fallback 0.3.  The
thesis confidence is the mean of the collected scores. -/
def researcher_bull (technical fundamental sentiment valuation : Signal) : Thesis :=
  let tp :=
    if technical.signal = "bullish" then
      ("Technical indicators show bullish momentum with " ++
        toString technical.confidence ++ " confidence", technical.confidence)
    else
      ("Technical indicators may be conservative, presenting buying opportunities", (3 : ℚ)/10)
  let fp :=
    if fundamental.signal = "bullish" then
      ("Strong fundamentals with " ++ toString fundamental.confidence ++ " confidence",
        fundamental.confidence)
    else
      ("Company fundamentals show potential for improvement", (3 : ℚ)/10)
  let sp :=
    if sentiment.signal = "bullish" then
      ("Positive market sentiment with " ++ toString sentiment.confidence ++ " confidence",
        sentiment.confidence)
    else
      ("Market sentiment may be overly pessimistic, creating value opportunities", (3 : ℚ)/10)
  let vp :=
    if valuation.signal = "bullish" then
      ("Stock appears undervalued with " ++ toString valuation.confidence ++ " confidence",
        valuation.confidence)
    else
      ("Current valuation may not fully reflect growth potential", (3 : ℚ)/10)
  let entries := [tp, fp, sp, vp]
  { perspective := "bullish"
    confidence := (entries.map Prod.snd).sum / ((entries.map Prod.snd).length : ℚ)
    thesis_points := entries.map Prod.fst }

/-- `researcher_bear_agent` (researcher_bear.py lines 52-122), symmetric to the
bull researcher with stance "bearish". -/
def researcher_bear (technical fundamental sentiment valuation : Signal) : Thesis :=
  let tp :=
    if technical.signal = "bearish" then
      ("Technical indicators show bearish momentum with " ++
        toString technical.confidence ++ " confidence", technical.confidence)
    else
      ("Technical rally may be temporary, suggesting potential reversal", (3 : ℚ)/10)
  let fp :=
    if fundamental.signal = "bearish" then
      ("Concerning fundamentals with " ++ toString fundamental.confidence ++ " confidence",
        fundamental.confidence)
    else
      ("Current fundamental strength may not be sustainable", (3 : ℚ)/10)
  let sp :=
    if sentiment.signal = "bearish" then
      ("Negative market sentiment with " ++ toString sentiment.confidence ++ " confidence",
        sentiment.confidence)
    else
      ("Market sentiment may be overly optimistic, indicating potential risks", (3 : ℚ)/10)
  let vp :=
    if valuation.signal = "bearish" then
      ("Stock appears overvalued with " ++ toString valuation.confidence ++ " confidence",
        valuation.confidence)
    else
      ("Current valuation may not fully reflect downside risks", (3 : ℚ)/10)
  let entries := [tp, fp, sp, vp]
  { perspective := "bearish"
    confidence := (entries.map Prod.snd).sum / ((entries.map Prod.snd).length : ℚ)
    thesis_points := entries.map Prod.fst }

/-- A float value produced by the pandas/numpy risk statistics: NaN, an
infinity, or a finite value (a rational). -/
inductive Fl where
  | nan
  | pinf
  | ninf
  | val (q : ℚ)
deriving DecidableEq

/-- IEEE comparison `x > c` against a finite threshold: NaN compares false. -/
def flGt (x : Fl) (c : ℚ) : Bool :=
  match x with
  | .nan => false
  | .pinf => true
  | .ninf => false
  | .val q => decide (c < q)

/-- IEEE comparison `x < c` on an optional value: NaN (`none`) compares
false. -/
def oLt (x : Option ℚ) (c : ℚ) : Bool :=
  match x with
  | none => false
  | some q => decide (q < c)

/-- `prices.pct_change().dropna()`: relative change of each consecutive pair.
Matches pandas whenever every price is nonzero (zero prices are excluded by
hypothesis in the theorems that evaluate price series). -/
def pct_changes (prices : List ℚ) : List ℚ :=
  List.zipWith (fun a b => b / a - 1) prices prices.tail

/-- Arithmetic mean of a list of rationals. -/
def meanQ (l : List ℚ) : ℚ := l.sum / (l.length : ℚ)

/-- Sample variance with `ddof = 1` (the pandas default). -/
def sampleVar (l : List ℚ) : ℚ :=
  ((l.map (fun x => (x - meanQ l) ^ 2)).sum) / ((l.length - 1 : ℕ) : ℚ)

/-- `Series.std()` (ddof = 1): NaN unless at least two observations; the
square root is the parameter `sqrtf` (the real square root is not
rational-valued, so the embedding is parametric in it; theorems only use
`sqrtf 0 = 0`). -/
def sampleStd (sqrtf : ℚ → ℚ) (l : List ℚ) : Option ℚ :=
  if l.length ≤ 1 then none else some (sqrtf (sampleVar l))

/-- The rolling window of width `w` ending at index `i`. -/
def rwindow (l : List ℚ) (w i : ℕ) : List ℚ := (l.drop (i + 1 - w)).take w

/-- `returns.rolling(window=120).std() * sqrt(252)` (risk_manager.py line 56):
NaN until the window holds 120 observations. -/
def rolling_ann_vol (sqrtf : ℚ → ℚ) (sqrt252 : ℚ) (returns : List ℚ) : List (Option ℚ) :=
  (List.range returns.length).map (fun i =>
    if i + 1 < 120 then none
    else (sampleStd sqrtf (rwindow returns 120 i)).map (fun s => s * sqrt252))

/-- `Series.mean()` with NaN skipping: NaN when no observation remains. -/
def meanO (l : List (Option ℚ)) : Option ℚ :=
  let v := l.reduceOption
  if v.length = 0 then none else some (meanQ v)

/-- `Series.std()` with NaN skipping (ddof = 1). -/
def stdO (sqrtf : ℚ → ℚ) (l : List (Option ℚ)) : Option ℚ :=
  sampleStd sqrtf l.reduceOption

/-- Subtraction on NaN-able values: NaN propagates. -/
def zsub (a b : Option ℚ) : Option ℚ :=
  match a, b with
  | some x, some y => some (x - y)
  | _, _ => none

/-- numpy float division `(volatility - mean) / std`: NaN propagates, 0/0 is
NaN and x/0 is a signed infinity. -/
def zdiv (a b : Option ℚ) : Fl :=
  match a, b with
  | some x, some y =>
      if y = 0 then
        if x = 0 then .nan else if 0 < x then .pinf else .ninf
      else .val (x / y)
  | _, _ => .nan

/-- `Series.quantile(q)` with the default linear interpolation; NaN on an
empty series. -/
def quantileQ (q : ℚ) (l : List ℚ) : Option ℚ :=
  if l.length = 0 then none
  else
    let s := l.mergeSort (fun a b => decide (a ≤ b))
    let pos : ℚ := q * ((l.length : ℚ) - 1)
    let i : ℕ := (⌊pos⌋).toNat
    let frac : ℚ := pos - (i : ℚ)
    let lo := s.getD i 0
    let hi := s.getD (i + 1) lo
    some (lo + frac * (hi - lo))

/-- Maximum of a list of rationals, `none` on an empty list. -/
def listMax : List ℚ → Option ℚ
  | [] => none
  | h :: t => some (t.foldl max h)

/-- Minimum with NaN skipping, NaN when nothing remains. -/
def minO (l : List (Option ℚ)) : Option ℚ :=
  match l.reduceOption with
  | [] => none
  | h :: t => some (t.foldl min h)

/-- `close / close.rolling(window=60).max() - 1` (risk_manager.py lines 66-67):
NaN until the window holds 60 observations. -/
def drawdown_series (prices : List ℚ) : List (Option ℚ) :=
  (List.range prices.length).map (fun i =>
    if i + 1 < 60 then none
    else (listMax (rwindow prices 60 i)).map (fun m => prices.getD i 0 / m - 1))

/-- The three market-metric contributions to the risk score
(risk_manager.py lines 70-103): volatility percentile (+2 above 1.5 standard
deviations, +1 above 1), VaR (+2 below -3%, +1 below -2%) and maximum
drawdown (+2 below -20%, +1 below -10%). -/
def market_risk_score_base (volatility_percentile : Fl) (var_95 max_drawdown : Option ℚ) : ℕ :=
  (if flGt volatility_percentile (3/2) then 2
   else if flGt volatility_percentile 1 then 1 else 0)
  + (if oLt var_95 (-(3 : ℚ)/100) then 2
     else if oLt var_95 (-(2 : ℚ)/100) then 1 else 0)
  + (if oLt max_drawdown (-(1 : ℚ)/5) then 2
     else if oLt max_drawdown (-(1 : ℚ)/10) then 1 else 0)

/-- The debate-uncertainty contributions (risk_manager.py lines 158-165):
+1 when the debate was close, +1 when its overall confidence is low. -/
def debate_adjustment (bull_confidence bear_confidence debate_confidence : ℚ) : ℕ :=
  (if |bull_confidence - bear_confidence| < 1/10 then 1 else 0)
  + (if debate_confidence < 3/10 then 1 else 0)

/-- The position ceiling (risk_manager.py lines 105-127): 25% of the total
portfolio value, halved when the market risk score is at least 4 and reduced
by a quarter when it is at least 2. -/
def max_position_size_calc (total_portfolio_value : ℚ) (market_risk_score : ℕ) : ℚ :=
  let base_position_size := total_portfolio_value * (1/4)
  if 4 ≤ market_risk_score then base_position_size * (1/2)
  else if 2 ≤ market_risk_score then base_position_size * (3/4)
  else base_position_size

/-- The trading action (risk_manager.py lines 177-192). -/
def trading_action_of (risk_score : ℕ) (debate_signal : String) (debate_confidence : ℚ) : String :=
  if 9 ≤ risk_score then "hold"
  else if 7 ≤ risk_score then "reduce"
  else if debate_signal = "bullish" ∧ 1/2 < debate_confidence then "buy"
  else if debate_signal = "bearish" ∧ 1/2 < debate_confidence then "sell"
  else "hold"

/-- The debate-room fields `risk_management_agent` reads. -/
structure DebateData where
  signal : String
  confidence : ℚ
  bull_confidence : ℚ
  bear_confidence : ℚ
deriving DecidableEq

/-- The fields of the risk-management message relevant here:
`market_risk_score` is the accumulated (uncapped, post-debate) score as it is
reported in the message, `risk_score` its value capped at 10. -/
structure RiskOutput where
  max_position_size : ℚ
  risk_score : ℕ
  trading_action : String
  market_risk_score : ℕ
deriving DecidableEq

/-- The pre-debate market risk score as computed by `risk_management_agent`
from the close-price series (risk_manager.py lines 47-103). -/
def risk_metrics_base_score (sqrtf : ℚ → ℚ) (sqrt252 : ℚ) (prices : List ℚ) : ℕ :=
  let returns := pct_changes prices
  let daily_vol := sampleStd sqrtf returns
  let volatility := daily_vol.map (fun v => v * sqrt252)
  let rolling_std := rolling_ann_vol sqrtf sqrt252 returns
  let volatility_mean := meanO rolling_std
  let volatility_std := stdO sqrtf rolling_std
  let volatility_percentile := zdiv (zsub volatility volatility_mean) volatility_std
  let var_95 := quantileQ (1/20) returns
  let max_drawdown := minO (drawdown_series prices)
  market_risk_score_base volatility_percentile var_95 max_drawdown

/-- `risk_management_agent` (risk_manager.py lines 18-235): market metrics,
pre-debate score, position ceiling from the pre-debate score, debate
adjustments, final capped score and trading action. -/
def risk_management (sqrtf : ℚ → ℚ) (sqrt252 : ℚ) (prices : List ℚ)
    (cash : ℚ) (stock : ℤ) (debate : DebateData) : RiskOutput :=
  let base_score := risk_metrics_base_score sqrtf sqrt252 prices
  let last_close := prices.getD (prices.length - 1) 0
  let current_stock_value := (stock : ℚ) * last_close
  let total_portfolio_value := cash + current_stock_value
  let max_position_size := max_position_size_calc total_portfolio_value base_score
  let market_risk_score :=
    base_score + debate_adjustment debate.bull_confidence debate.bear_confidence debate.confidence
  let risk_score := min market_risk_score 10
  ⟨max_position_size, risk_score,
    trading_action_of risk_score debate.signal debate.confidence, market_risk_score⟩

/-- The final risk score as a function of the metric and debate inputs:
the single cap at 10 applied after all additive contributions. -/
def final_risk_score (volatility_percentile : Fl) (var_95 max_drawdown : Option ℚ)
    (bull_confidence bear_confidence debate_confidence : ℚ) : ℕ :=
  min (market_risk_score_base volatility_percentile var_95 max_drawdown
       + debate_adjustment bull_confidence bear_confidence debate_confidence) 10

/-- Modelled from the spec: the state-passing between pipeline stages.  The
files that define it (src/agents/state.py and the graph wiring in
src/main.py) are not under src/; the spec says each stage "consumes the
accumulated shared state" and "each stage returns a new context", so the
messages list a stage returns becomes the accumulated list.  Message contents
are opaque here.  `valuation_agent` returns only its own message
(valuation.py lines 124-130). -/
def valuation_messages {α : Type u} (_msgs : List α) (m : α) : List α := [m]

/-- Modelled from the spec (see `valuation_messages`): `fundamentals_agent`
returns only its own message (fundamentals.py lines 265-271). -/
def fundamentals_messages {α : Type u} (_msgs : List α) (m : α) : List α := [m]

/-- Modelled from the spec (see `valuation_messages`): `sentiment_agent`
returns only its own message (sentiment.py lines 98-104). -/
def sentiment_messages {α : Type u} (_msgs : List α) (m : α) : List α := [m]

/-- Modelled from the spec (see `valuation_messages`): `market_data_agent`
returns the incoming message list unchanged (market_data.py lines 172-175). -/
def market_data_messages {α : Type u} (msgs : List α) : List α := msgs

/-- Modelled from the spec (see `valuation_messages`): `researcher_bull_agent`
appends its message (researcher_bull.py lines 140-143). -/
def researcher_bull_messages {α : Type u} (msgs : List α) (m : α) : List α := msgs ++ [m]

/-- Modelled from the spec (see `valuation_messages`): `researcher_bear_agent`
appends its message (researcher_bear.py lines 140-143). -/
def researcher_bear_messages {α : Type u} (msgs : List α) (m : α) : List α := msgs ++ [m]

/-- Modelled from the spec (see `valuation_messages`): `debate_room_agent`
appends its message (debate_room.py lines 229-232). -/
def debate_room_messages {α : Type u} (msgs : List α) (m : α) : List α := msgs ++ [m]

/-- Modelled from the spec (see `valuation_messages`): `risk_management_agent`
appends its message (risk_manager.py lines 229-235). -/
def risk_management_messages {α : Type u} (msgs : List α) (m : α) : List α := msgs ++ [m]

/-- Modelled from the spec (see `valuation_messages`):
`portfolio_management_agent` appends its message (portfolio_manager.py lines
292-295). -/
def portfolio_management_messages {α : Type u} (msgs : List α) (m : α) : List α := msgs ++ [m]

/-- Well-formedness of the quantity field of a parsed reply: the JSON field
`quantity` is a non-negative integer (the prompt demands a positive integer);
the raw-text regex can only match non-negative digits. -/
def reply_quantity_nonneg : Option LLMReply → Prop
  | some (.parsedJson _ q _) => 0 ≤ q
  | _ => True

lemma lotQuant_dvd (n : ℤ) : (100 : ℤ) ∣ lotQuant n :=
  ⟨Int.fdiv n 100, (mul_comm _ _)⟩

lemma lotQuant_nonneg {n : ℤ} (h : 0 ≤ n) : 0 ≤ lotQuant n :=
  mul_nonneg (Int.fdiv_nonneg h (by norm_num)) (by norm_num)

lemma dvd_min {a b c : ℤ} (ha : c ∣ a) (hb : c ∣ b) : c ∣ min a b := by
  rcases le_total a b with h | h
  · rw [min_eq_left h]; exact ha
  · rw [min_eq_right h]; exact hb

lemma pyInt_nonneg {q : ℚ} (h : 0 ≤ q) : 0 ≤ pyInt q := by
  unfold pyInt
  rw [if_pos h]
  exact Int.floor_nonneg.mpr h

/-- C9 (counterexample): the valuation stage does not append to the
accumulated message list — with one prior message it returns only its own
message, so the claim "every stage returns the accumulated list plus exactly
one appended message" fails at the valuation stage. -/
theorem valuation_messages_counterexample :
    valuation_messages [0] (1 : ℕ) ≠ [0] ++ [1] := by decide

/-- C9 (amended): the researcher, debate-room, risk-management and
portfolio-management stages each return the accumulated list with exactly one
message appended; the fundamentals, sentiment and valuation producers return
only their own message, and the market-data stage appends none (under the
spec-modelled replacement semantics of the state passing). -/
theorem stage_messages_spec :
    ∀ (α : Type) (msgs : List α) (m : α),
      researcher_bull_messages msgs m = msgs ++ [m]
    ∧ researcher_bear_messages msgs m = msgs ++ [m]
    ∧ debate_room_messages msgs m = msgs ++ [m]
    ∧ risk_management_messages msgs m = msgs ++ [m]
    ∧ portfolio_management_messages msgs m = msgs ++ [m]
    ∧ valuation_messages msgs m = [m]
    ∧ fundamentals_messages msgs m = [m]
    ∧ sentiment_messages msgs m = [m]
    ∧ market_data_messages msgs = msgs := by
  intro α msgs m
  exact ⟨rfl, rfl, rfl, rfl, rfl, rfl, rfl, rfl, rfl⟩

/-- C2 (counterexample): a reply that is not parseable as JSON does not
produce the fixed conservative decision — a raw text mentioning "buy" yields
a buy decision, not hold/0/0.7. -/
theorem unparseable_reply_not_fallback :
    (portfolio_decision 300 500 (some (.rawText true false none))).action = "buy"
  ∧ portfolio_decision 300 500 (some (.rawText true false none))
      ≠ ⟨"hold", 0, some (7/10)⟩ := by
  constructor
  · rfl
  · decide

/-- C2 (amended): when the completion call fails (returns nothing), the
decision is the fixed conservative hold/0/0.7 for every portfolio; when the
reply is unparseable as JSON, the decision is instead extracted from the raw
text, and is hold with quantity 0 only when the text mentions neither "buy"
nor "sell". -/
theorem fallback_decision_spec (max_shares stock : ℤ) :
    portfolio_decision max_shares stock none = ⟨"hold", 0, some (7/10)⟩
  ∧ (∀ qm : Option ℕ,
      portfolio_decision max_shares stock (some (.rawText false false qm))
        = ⟨"hold", 0, none⟩) := by
  constructor
  · show parse_decision max_shares stock (.parsedJson "hold" 0 (7/10)) = _
    simp [parse_decision, strToLower, normalizeQuantity, lotQuant]
  · intro qm
    rfl

/-- C1 (code bug): with cash 0 every buy cap is 0, and the JSON path clips a
buy to 0 shares; but the raw-text extraction path never clips a matched buy
quantity against `max_shares`, so an unparseable reply recommending a buy of
200 shares yields a final buy quantity of 200 > 0. -/
theorem text_path_buy_cap_missing :
    max_shares_json 100000 0 10 = 0
  ∧ (portfolio_decision 0 0 (some (.parsedJson "buy" 200 (9/10)))).action = "buy"
  ∧ (portfolio_decision 0 0 (some (.parsedJson "buy" 200 (9/10)))).quantity = 0
  ∧ (portfolio_decision 0 0 (some (.rawText true false (some 200)))).action = "buy"
  ∧ (portfolio_decision 0 0 (some (.rawText true false (some 200)))).quantity = 200
  ∧ 0 < (portfolio_decision 0 0 (some (.rawText true false (some 200)))).quantity := by
  refine ⟨?_, ?_, ?_, ?_, ?_, ?_⟩
  · norm_num [max_shares_json, pyInt, lotQuant]
    decide
  · decide
  · decide
  · decide
  · decide
  · decide

/-- C3: the debate engine mixes the confidence difference with the external
score as 0.7·(b−r) + 0.3·s; below 0.1 in absolute value the result is neutral
with confidence max(b,r), positive means bullish with confidence b, otherwise
bearish with confidence r; the 0.8/0.2/0 scenario yields mixed difference
0.42 and a bullish signal with confidence 0.8; equal confidences with a zero
score yield neutral. -/
theorem debate_mix_spec (b r s : ℚ) (hs : -1 ≤ s ∧ s ≤ 1) :
    (debate_mix b r s).mixed_confidence_diff = (7/10) * (b - r) + (3/10) * s
  ∧ (debate_mix b r s).confidence_diff = b - r
  ∧ (|(7/10) * (b - r) + (3/10) * s| < 1/10 →
      (debate_mix b r s).signal = "neutral" ∧ (debate_mix b r s).confidence = max b r)
  ∧ (¬ |(7/10) * (b - r) + (3/10) * s| < 1/10 → 0 < (7/10) * (b - r) + (3/10) * s →
      (debate_mix b r s).signal = "bullish" ∧ (debate_mix b r s).confidence = b)
  ∧ (¬ |(7/10) * (b - r) + (3/10) * s| < 1/10 → ¬ 0 < (7/10) * (b - r) + (3/10) * s →
      (debate_mix b r s).signal = "bearish" ∧ (debate_mix b r s).confidence = r)
  ∧ debate_mix (8/10) (2/10) 0 = ⟨"bullish", 8/10, 6/10, 21/50⟩
  ∧ (b = r → (debate_mix b r 0).signal = "neutral") := by
  have hd : ∀ x y z : ℚ, debate_mix x y z =
      (if |(7/10) * (x - y) + (3/10) * z| < 1/10 then
        (⟨"neutral", max x y, x - y, (7/10) * (x - y) + (3/10) * z⟩ : DebateResult)
      else if 0 < (7/10) * (x - y) + (3/10) * z then
        ⟨"bullish", x, x - y, (7/10) * (x - y) + (3/10) * z⟩
      else ⟨"bearish", y, x - y, (7/10) * (x - y) + (3/10) * z⟩) := by
    intro x y z
    have hm : (1 - llm_weight) * (x - y) + llm_weight * z
        = (7/10) * (x - y) + (3/10) * z := by
      norm_num [llm_weight]
    simp only [debate_mix]
    rw [hm]
  refine ⟨?_, ?_, ?_, ?_, ?_, ?_, ?_⟩
  · rw [hd]
    split_ifs <;> rfl
  · rw [hd]
    split_ifs <;> rfl
  · intro h
    rw [hd, if_pos h]
    exact ⟨rfl, rfl⟩
  · intro h hpos
    rw [hd, if_neg h, if_pos hpos]
    exact ⟨rfl, rfl⟩
  · intro h hpos
    rw [hd, if_neg h, if_neg hpos]
    exact ⟨rfl, rfl⟩
  · have h1 : (7/10) * ((8:ℚ)/10 - 2/10) + (3/10) * 0 = 21/50 := by norm_num
    rw [hd, h1, if_neg (by rw [abs_of_pos (by norm_num)]; norm_num),
        if_pos (by norm_num)]
    norm_num
  · intro hbr
    subst hbr
    have h0 : (7/10) * ((b:ℚ) - b) + (3/10) * 0 = 0 := by ring
    rw [hd, h0, if_pos (by norm_num)]

/-- Witness for `debate_mix_spec` at the 0.8 / 0.2 / 0 scenario. -/
theorem debate_mix_spec_witness :
    (debate_mix (8/10) (2/10) 0).mixed_confidence_diff
      = (7/10) * ((8/10) - (2/10)) + (3/10) * 0 :=
  (debate_mix_spec (8/10) (2/10) 0 ⟨by norm_num, by norm_num⟩).1

/-- C7: the risk engine's trading action is hold when the final risk score is
at least 9, reduce when it is at least 7, otherwise buy exactly on a bullish
debate signal with confidence above 0.5, sell exactly on a bearish one, and
hold in all remaining cases; and the agent applies this rule to its final
(capped) risk score and the debate fields. -/
theorem trading_action_spec (sc : ℕ) (sig : String) (c : ℚ) :
    (9 ≤ sc → trading_action_of sc sig c = "hold")
  ∧ (7 ≤ sc → sc < 9 → trading_action_of sc sig c = "reduce")
  ∧ (sc < 7 → sig = "bullish" → 1/2 < c → trading_action_of sc sig c = "buy")
  ∧ (sc < 7 → sig = "bearish" → 1/2 < c → trading_action_of sc sig c = "sell")
  ∧ (sc < 7 → ¬ ((sig = "bullish" ∨ sig = "bearish") ∧ 1/2 < c) →
      trading_action_of sc sig c = "hold")
  ∧ (∀ (sqrtf : ℚ → ℚ) (s252 : ℚ) (prices : List ℚ) (cash : ℚ) (stock : ℤ)
        (d : DebateData),
      (risk_management sqrtf s252 prices cash stock d).trading_action =
        trading_action_of (risk_management sqrtf s252 prices cash stock d).risk_score
          d.signal d.confidence) := by
  refine ⟨?_, ?_, ?_, ?_, ?_, ?_⟩
  · intro h
    unfold trading_action_of
    rw [if_pos h]
  · intro h1 h2
    unfold trading_action_of
    rw [if_neg (by omega), if_pos h1]
  · intro h1 h2 h3
    unfold trading_action_of
    rw [if_neg (by omega), if_neg (by omega), if_pos ⟨h2, h3⟩]
  · intro h1 h2 h3
    unfold trading_action_of
    subst h2
    rw [if_neg (by omega), if_neg (by omega), if_neg (by simp), if_pos ⟨rfl, h3⟩]
  · intro h1 h2
    unfold trading_action_of
    rw [if_neg (by omega), if_neg (by omega),
        if_neg (fun hb => h2 ⟨Or.inl hb.1, hb.2⟩),
        if_neg (fun hb => h2 ⟨Or.inr hb.1, hb.2⟩)]
  · intro sqrtf s252 prices cash stock d
    rfl

/-- Witness for `trading_action_spec` at score 9. -/
theorem trading_action_spec_witness :
    trading_action_of 9 "bullish" 1 = "hold" :=
  (trading_action_spec 9 "bullish" 1).1 (by norm_num)

lemma market_risk_score_base_le (vp : Fl) (v95 dd : Option ℚ) :
    market_risk_score_base vp v95 dd ≤ 6 := by
  unfold market_risk_score_base
  split_ifs <;> omega

lemma debate_adjustment_le (b r c : ℚ) : debate_adjustment b r c ≤ 2 := by
  unfold debate_adjustment
  split_ifs <;> omega

lemma vol_score_mono {p p' : ℚ} (h : p ≤ p') :
    (if flGt (Fl.val p) (3/2) then 2 else if flGt (Fl.val p) 1 then 1 else 0 : ℕ)
      ≤ (if flGt (Fl.val p') (3/2) then 2 else if flGt (Fl.val p') 1 then 1 else 0) := by
  simp only [flGt, decide_eq_true_eq]
  split_ifs <;> first | omega | linarith

lemma lo_score_mono {v v' : ℚ} (t1 t2 : ℚ) (h : v' ≤ v) :
    (if oLt (some v) t1 then 2 else if oLt (some v) t2 then 1 else 0 : ℕ)
      ≤ (if oLt (some v') t1 then 2 else if oLt (some v') t2 then 1 else 0) := by
  simp only [oLt, decide_eq_true_eq]
  split_ifs <;> first | omega | linarith

lemma debate_adjustment_mono {b r c b' r' c' : ℚ}
    (hbr : |b' - r'| ≤ |b - r|) (hc : c' ≤ c) :
    debate_adjustment b r c ≤ debate_adjustment b' r' c' := by
  unfold debate_adjustment
  split_ifs <;> first | omega | linarith

/-- C10: the three market-metric contributions sum to at most 6 and the two
debate contributions to at most 2, so the accumulated score is at most 8, the
cap min(·,10) never binds, the final risk score lies in [0,8], and the
"hold if score ≥ 9" branch of the trading action is dead: the action always
equals the rule with that branch removed, so reduce is the strongest
risk-forced action. -/
theorem risk_score_upper_bound_spec (vp : Fl) (v95 dd : Option ℚ) (b r c : ℚ) :
    market_risk_score_base vp v95 dd ≤ 6
  ∧ debate_adjustment b r c ≤ 2
  ∧ final_risk_score vp v95 dd b r c
      = market_risk_score_base vp v95 dd + debate_adjustment b r c
  ∧ final_risk_score vp v95 dd b r c ≤ 8
  ∧ (∀ sig : String,
      trading_action_of (final_risk_score vp v95 dd b r c) sig c =
        if 7 ≤ final_risk_score vp v95 dd b r c then "reduce"
        else if sig = "bullish" ∧ 1/2 < c then "buy"
        else if sig = "bearish" ∧ 1/2 < c then "sell"
        else "hold") := by
  have h1 := market_risk_score_base_le vp v95 dd
  have h2 := debate_adjustment_le b r c
  have h3 : final_risk_score vp v95 dd b r c
      = market_risk_score_base vp v95 dd + debate_adjustment b r c := by
    unfold final_risk_score
    omega
  refine ⟨h1, h2, h3, by omega, ?_⟩
  intro sig
  unfold trading_action_of
  rw [if_neg (by omega)]

/-- C6: the final risk score is capped at 10 exactly once, after all additive
contributions (including the debate adjustments); it always lies in [0,10];
and it is monotonically non-decreasing in the volatility percentile, in VaR
severity, in drawdown severity, and in debate uncertainty (closer confidence
difference, lower debate confidence). -/
theorem risk_score_monotone_spec (p p' v v' d d' b r c b' r' c' : ℚ)
    (hp : p ≤ p') (hv : v' ≤ v) (hd : d' ≤ d)
    (hbr : |b' - r'| ≤ |b - r|) (hc : c' ≤ c) :
    final_risk_score (.val p) (some v) (some d) b r c
      ≤ final_risk_score (.val p') (some v') (some d') b' r' c'
  ∧ (∀ (vp : Fl) (v95 dd : Option ℚ) (b₀ r₀ c₀ : ℚ),
      0 ≤ final_risk_score vp v95 dd b₀ r₀ c₀
      ∧ final_risk_score vp v95 dd b₀ r₀ c₀ ≤ 10
      ∧ final_risk_score vp v95 dd b₀ r₀ c₀ =
          min (market_risk_score_base vp v95 dd + debate_adjustment b₀ r₀ c₀) 10)
  ∧ (∀ (sqrtf : ℚ → ℚ) (s252 : ℚ) (prices : List ℚ) (cash : ℚ) (stock : ℤ)
        (dd : DebateData),
      (risk_management sqrtf s252 prices cash stock dd).risk_score =
        min (risk_management sqrtf s252 prices cash stock dd).market_risk_score 10) := by
  refine ⟨?_, ?_, ?_⟩
  · have hvol := vol_score_mono hp
    have hvar := lo_score_mono (-(3:ℚ)/100) (-(2:ℚ)/100) hv
    have hdd := lo_score_mono (-(1:ℚ)/5) (-(1:ℚ)/10) hd
    have hadj := debate_adjustment_mono hbr hc
    unfold final_risk_score market_risk_score_base
    omega
  · intro vp v95 dd b₀ r₀ c₀
    exact ⟨Nat.zero_le _, Nat.min_le_right _ _, rfl⟩
  · intro sqrtf s252 prices cash stock dd
    rfl

/-- Witness for `risk_score_monotone_spec` at equal inputs. -/
theorem risk_score_monotone_spec_witness :
    final_risk_score (.val 0) (some 0) (some 0) 0 0 0
      ≤ final_risk_score (.val 0) (some 0) (some 0) 0 0 0 :=
  (risk_score_monotone_spec 0 0 0 0 0 0 0 0 0 0 0 0
    le_rfl le_rfl le_rfl le_rfl le_rfl).1

/-- C8: each thesis builder always emits exactly 4 thesis points, and its
confidence is the arithmetic mean of exactly 4 per-signal scores — the
signal's own confidence when its direction matches the stance, the fixed
fallback 0.3 otherwise; under total disagreement the confidence is exactly
0.3, so both theses are produced in every case. -/
theorem researcher_thesis_spec (t f s v : Signal) :
    (researcher_bull t f s v).thesis_points.length = 4
  ∧ (researcher_bear t f s v).thesis_points.length = 4
  ∧ (researcher_bull t f s v).confidence =
      ((if t.signal = "bullish" then t.confidence else 3/10)
        + (if f.signal = "bullish" then f.confidence else 3/10)
        + (if s.signal = "bullish" then s.confidence else 3/10)
        + (if v.signal = "bullish" then v.confidence else 3/10)) / 4
  ∧ (researcher_bear t f s v).confidence =
      ((if t.signal = "bearish" then t.confidence else 3/10)
        + (if f.signal = "bearish" then f.confidence else 3/10)
        + (if s.signal = "bearish" then s.confidence else 3/10)
        + (if v.signal = "bearish" then v.confidence else 3/10)) / 4
  ∧ (t.signal ≠ "bullish" → f.signal ≠ "bullish" → s.signal ≠ "bullish" →
      v.signal ≠ "bullish" → (researcher_bull t f s v).confidence = 3/10)
  ∧ (t.signal ≠ "bearish" → f.signal ≠ "bearish" → s.signal ≠ "bearish" →
      v.signal ≠ "bearish" → (researcher_bear t f s v).confidence = 3/10) := by
  refine ⟨?_, ?_, ?_, ?_, ?_, ?_⟩
  · simp only [researcher_bull]
    split_ifs <;> simp
  · simp only [researcher_bear]
    split_ifs <;> simp
  · simp only [researcher_bull]
    split_ifs <;> (simp; ring)
  · simp only [researcher_bear]
    split_ifs <;> (simp; ring)
  · intro h1 h2 h3 h4
    simp only [researcher_bull, if_neg h1, if_neg h2, if_neg h3, if_neg h4]
    norm_num
  · intro h1 h2 h3 h4
    simp only [researcher_bear, if_neg h1, if_neg h2, if_neg h3, if_neg h4]
    norm_num

/-- Witness for `researcher_thesis_spec` under total disagreement. -/
theorem researcher_thesis_spec_witness :
    (researcher_bull ⟨"neutral", 1⟩ ⟨"bearish", 1⟩ ⟨"neutral", 1⟩ ⟨"bearish", 1⟩).confidence
      = 3/10 :=
  (researcher_thesis_spec ⟨"neutral", 1⟩ ⟨"bearish", 1⟩ ⟨"neutral", 1⟩
    ⟨"bearish", 1⟩).2.2.2.2.1 (by decide) (by decide) (by decide) (by decide)

lemma normalizeQuantity_nonneg {q : ℤ} (h : 0 ≤ q) : 0 ≤ normalizeQuantity q := by
  simp only [normalizeQuantity]
  split_ifs <;> first | exact lotQuant_nonneg h | exact h | norm_num

lemma parse_json_action_cases (max_shares stock : ℤ) (a : String) (q : ℤ) (c : ℚ) :
    (parse_decision max_shares stock (.parsedJson a q c)).quantity
      = lotQuant
          (if strToLower a = "buy" then
            (if max_shares < normalizeQuantity q then max_shares else normalizeQuantity q)
          else if strToLower a = "sell" then
            (if stock < normalizeQuantity q then stock else normalizeQuantity q)
          else normalizeQuantity q) := by
  simp only [parse_decision]

/-- C4: the final decision quantity is always a non-negative multiple of the
100-share lot, and a raw requested quantity that is positive but rounds down
to zero lots is promoted to exactly one lot before the buy/sell caps are
applied; the max-shares cap itself is a non-negative multiple of the lot. -/
theorem decision_quantity_lot_spec (mps cash price : ℚ) (max_shares stock : ℤ)
    (reply : Option LLMReply)
    (hms : (100 : ℤ) ∣ max_shares) (hms0 : 0 ≤ max_shares) (hstock : 0 ≤ stock)
    (hq : reply_quantity_nonneg reply) (hcash : 0 ≤ cash) (hmps : 0 ≤ mps) :
    (100 : ℤ) ∣ (portfolio_decision max_shares stock reply).quantity
  ∧ 0 ≤ (portfolio_decision max_shares stock reply).quantity
  ∧ (∀ q : ℤ, 0 < q → lotQuant q = 0 → normalizeQuantity q = 100)
  ∧ (∀ (a : String) (q : ℤ) (c : ℚ), strToLower a = "buy" →
      (parse_decision max_shares stock (.parsedJson a q c)).quantity =
        lotQuant (if max_shares < normalizeQuantity q then max_shares
                  else normalizeQuantity q))
  ∧ (100 : ℤ) ∣ max_shares_json mps cash price
  ∧ 0 ≤ max_shares_json mps cash price := by
  have hq2 : (100 : ℤ) ∣ (portfolio_decision max_shares stock reply).quantity
      ∧ 0 ≤ (portfolio_decision max_shares stock reply).quantity := by
    match reply with
    | none =>
        show (100 : ℤ) ∣ (parse_decision _ _ _).quantity ∧
          0 ≤ (parse_decision _ _ _).quantity
        rw [parse_json_action_cases]
        constructor
        · exact lotQuant_dvd _
        · apply lotQuant_nonneg
          have h0 : (0 : ℤ) ≤ normalizeQuantity 0 := normalizeQuantity_nonneg le_rfl
          split_ifs <;> first | exact hms0 | exact hstock | exact h0
    | some (.parsedJson a q c) =>
        show (100 : ℤ) ∣ (parse_decision _ _ _).quantity ∧
          0 ≤ (parse_decision _ _ _).quantity
        rw [parse_json_action_cases]
        have h0 : (0 : ℤ) ≤ normalizeQuantity q := normalizeQuantity_nonneg hq
        constructor
        · exact lotQuant_dvd _
        · apply lotQuant_nonneg
          split_ifs <;> first | exact hms0 | exact hstock | exact h0
    | some (.rawText hasBuy hasSell qm) =>
        have hnat : ∀ m : ℕ, (0 : ℤ) ≤ (m : ℤ) := fun m => Int.natCast_nonneg m
        have hbm : ∀ m : ℕ,
            ((100 : ℤ) ∣ (if lotQuant (m : ℤ) = 0 ∧ 0 < m then (100 : ℤ)
                          else lotQuant (m : ℤ)))
            ∧ (0 : ℤ) ≤ (if lotQuant (m : ℤ) = 0 ∧ 0 < m then (100 : ℤ)
                          else lotQuant (m : ℤ)) := by
          intro m
          constructor
          · split_ifs
            · norm_num
            · exact lotQuant_dvd _
          · split_ifs
            · norm_num
            · exact lotQuant_nonneg (hnat m)
        cases hasBuy <;> cases hasSell <;> cases qm <;>
          simp only [portfolio_decision, parse_decision] <;>
          norm_num
        case false.true.none =>
          exact ⟨lotQuant_dvd _, lotQuant_nonneg hstock⟩
        case false.true.some m =>
          exact ⟨lotQuant_dvd _, lotQuant_nonneg (le_min (hnat m) hstock)⟩
        case true.false.none =>
          exact ⟨hms, hms0⟩
        case true.false.some m =>
          exact hbm m
        case true.true.none =>
          exact ⟨hms, hms0⟩
        case true.true.some m =>
          exact hbm m
  refine ⟨hq2.1, hq2.2, ?_, ?_, ?_, ?_⟩
  · intro q h1 h2
    simp [normalizeQuantity, h1, h2]
  · intro a q c ha
    rw [parse_json_action_cases, if_pos ha]
  · unfold max_shares_json
    exact dvd_min (lotQuant_dvd _) (lotQuant_dvd _)
  · unfold max_shares_json
    apply le_min
    · apply lotQuant_nonneg
      split_ifs with h
      · exact pyInt_nonneg (div_nonneg hmps h.le)
      · exact le_rfl
    · apply lotQuant_nonneg
      split_ifs with h
      · exact pyInt_nonneg (div_nonneg hcash h.le)
      · exact le_rfl

/-- Witness for `decision_quantity_lot_spec` at a concrete run. -/
theorem decision_quantity_lot_spec_witness :
    (100 : ℤ) ∣ (portfolio_decision 200 0 (some (.parsedJson "buy" 150 1))).quantity :=
  (decision_quantity_lot_spec 0 0 1 200 0 (some (.parsedJson "buy" 150 1))
    (by norm_num) (by norm_num) le_rfl (by norm_num [reply_quantity_nonneg])
    le_rfl le_rfl).1

lemma zipWith_replicate_self {α β : Type} (f : α → α → β) (a : α) (n : ℕ) :
    List.zipWith f (List.replicate (n+1) a) (List.replicate n a)
      = List.replicate n (f a a) := by
  induction n with
  | zero => rfl
  | succ m ih =>
      have h1 : List.replicate (m+1+1) a = a :: List.replicate (m+1) a :=
        List.replicate_succ a (m+1)
      have h2 : List.replicate (m+1) a = a :: List.replicate m a :=
        List.replicate_succ a m
      rw [h1, h2, List.zipWith_cons_cons, ← h2, ih, ← List.replicate_succ]

lemma pct_changes_replicate {p : ℚ} (hp : p ≠ 0) (n : ℕ) :
    pct_changes (List.replicate n p) = List.replicate (n - 1) 0 := by
  cases n with
  | zero => rfl
  | succ m =>
      unfold pct_changes
      have ht : (List.replicate (m+1) p).tail = List.replicate m p := by
        rw [List.replicate_succ]
        rfl
      rw [ht, zipWith_replicate_self]
      simp [div_self hp]

lemma meanQ_replicate_zero (k : ℕ) : meanQ (List.replicate k (0:ℚ)) = 0 := by
  unfold meanQ
  simp

lemma sampleVar_replicate_zero (k : ℕ) : sampleVar (List.replicate k (0:ℚ)) = 0 := by
  unfold sampleVar
  rw [meanQ_replicate_zero, List.map_replicate]
  norm_num

lemma sampleStd_replicate_zero {sqrtf : ℚ → ℚ} (h0 : sqrtf 0 = 0) (k : ℕ) :
    sampleStd sqrtf (List.replicate k (0:ℚ)) = if k ≤ 1 then none else some 0 := by
  unfold sampleStd
  rw [List.length_replicate, sampleVar_replicate_zero, h0]

lemma rwindow_replicate (c : ℚ) (k w i : ℕ) :
    rwindow (List.replicate k c) w i = List.replicate (min w (k - (i + 1 - w))) c := by
  unfold rwindow
  rw [List.drop_replicate, List.take_replicate]

lemma rolling_ann_vol_replicate {sqrtf : ℚ → ℚ} (h0 : sqrtf 0 = 0) (s252 : ℚ) (k : ℕ) :
    rolling_ann_vol sqrtf s252 (List.replicate k (0:ℚ))
      = (List.range k).map (fun i => if i + 1 < 120 then none else some 0) := by
  unfold rolling_ann_vol
  rw [List.length_replicate]
  apply List.map_congr_left
  intro i hi
  rw [List.mem_range] at hi
  by_cases h : i + 1 < 120
  · simp [h]
  · rw [if_neg h, if_neg h, rwindow_replicate]
    have hw : min 120 (k - (i + 1 - 120)) = 120 := by omega
    rw [hw, sampleStd_replicate_zero h0, if_neg (by norm_num)]
    simp

lemma reduceOption_range_if (c : ℚ) (t k : ℕ) :
    ((List.range k).map (fun i => if i + 1 < t then none else some c)).reduceOption
      = List.replicate (k - (t - 1)) c := by
  induction k with
  | zero => simp
  | succ m ih =>
      rw [List.range_succ, List.map_append, List.reduceOption_append, ih]
      by_cases h : m + 1 < t
      · have h2 : m + 1 - (t - 1) = 0 := by omega
        have h3 : m - (t - 1) = 0 := by omega
        simp [h, h2, h3]
      · have h2 : m + 1 - (t - 1) = (m - (t - 1)) + 1 := by omega
        rw [h2, List.replicate_succ']
        simp [h]

lemma mergeSort_replicate (k : ℕ) :
    (List.replicate k (0:ℚ)).mergeSort (fun a b => decide (a ≤ b))
      = List.replicate k 0 :=
  List.perm_replicate.mp (List.mergeSort_perm _ _)

lemma replicate_getD (k i : ℕ) (d : ℚ) :
    (List.replicate k (0:ℚ)).getD i d = if i < k then 0 else d := by
  rw [List.getD_eq_getElem?_getD, List.getElem?_replicate]
  split_ifs <;> rfl

lemma quantileQ_replicate_zero {k : ℕ} (hk : k ≠ 0) :
    quantileQ (1/20) (List.replicate k (0:ℚ)) = some 0 := by
  unfold quantileQ
  rw [List.length_replicate, if_neg hk, mergeSort_replicate]
  simp [replicate_getD]

lemma foldl_max_replicate (p : ℚ) (j : ℕ) :
    (List.replicate j p).foldl max p = p := by
  induction j with
  | zero => rfl
  | succ m ih => rw [List.replicate_succ, List.foldl_cons, max_self]; exact ih

lemma foldl_min_replicate_zero (j : ℕ) :
    (List.replicate j (0:ℚ)).foldl min 0 = 0 := by
  induction j with
  | zero => rfl
  | succ m ih => rw [List.replicate_succ, List.foldl_cons, min_self]; exact ih

lemma listMax_replicate {j : ℕ} (h : j ≠ 0) (p : ℚ) :
    listMax (List.replicate j p) = some p := by
  cases j with
  | zero => omega
  | succ m =>
      rw [List.replicate_succ]
      show some (List.foldl max p (List.replicate m p)) = some p
      rw [foldl_max_replicate]

lemma drawdown_series_replicate {p : ℚ} (hp : 0 < p) (n : ℕ) :
    drawdown_series (List.replicate n p)
      = (List.range n).map (fun i => if i + 1 < 60 then none else some 0) := by
  unfold drawdown_series
  rw [List.length_replicate]
  apply List.map_congr_left
  intro i hi
  rw [List.mem_range] at hi
  by_cases h : i + 1 < 60
  · simp [h]
  · rw [if_neg h, if_neg h, rwindow_replicate]
    have hw : min 60 (n - (i + 1 - 60)) = 60 := by omega
    rw [hw, listMax_replicate (by norm_num)]
    simp [List.getElem?_replicate, hi, div_self (ne_of_gt hp)]

lemma minO_range_if {n : ℕ} (hn : 60 ≤ n) :
    minO ((List.range n).map (fun i => if i + 1 < 60 then none else some (0:ℚ)))
      = some 0 := by
  unfold minO
  rw [reduceOption_range_if]
  have h : n - (60 - 1) = (n - 60) + 1 := by omega
  rw [h, List.replicate_succ]
  show some ((List.replicate (n - 60) (0:ℚ)).foldl min 0) = some 0
  rw [foldl_min_replicate_zero]

lemma risk_metrics_base_score_replicate {sqrtf : ℚ → ℚ} (h0 : sqrtf 0 = 0)
    (s252 : ℚ) {n : ℕ} (hn : 60 ≤ n) {p : ℚ} (hp : 0 < p) :
    risk_metrics_base_score sqrtf s252 (List.replicate n p) = 0 := by
  simp only [risk_metrics_base_score]
  rw [pct_changes_replicate (ne_of_gt hp)]
  have hk2 : ¬ (n - 1) ≤ 1 := by omega
  rw [sampleStd_replicate_zero h0, if_neg hk2]
  rw [rolling_ann_vol_replicate h0]
  rw [quantileQ_replicate_zero (by omega)]
  rw [drawdown_series_replicate hp, minO_range_if hn]
  have hro : ((List.range (n-1)).map
      (fun i => if i + 1 < 120 then none else some (0:ℚ))).reduceOption
      = List.replicate ((n-1) - 119) 0 := by
    have := reduceOption_range_if 0 120 (n-1)
    simpa using this
  have hM : meanO ((List.range (n-1)).map
      (fun i => if i + 1 < 120 then none else some (0:ℚ)))
      = if (n-1) - 119 = 0 then none else some 0 := by
    simp only [meanO]
    rw [hro, List.length_replicate, meanQ_replicate_zero]
  have hS : stdO sqrtf ((List.range (n-1)).map
      (fun i => if i + 1 < 120 then none else some (0:ℚ)))
      = if (n-1) - 119 ≤ 1 then none else some 0 := by
    unfold stdO
    rw [hro, sampleStd_replicate_zero h0]
  rw [hM, hS]
  simp only [Option.map_some']
  have hnan : ∀ j : ℕ,
      zdiv (zsub ((some (0 * s252)))
          (if j = 0 then none else some 0))
        (if j ≤ 1 then none else some 0) = Fl.nan := by
    intro j
    by_cases hj0 : j = 0
    · simp [hj0, zsub, zdiv]
    · by_cases hj1 : j ≤ 1
      · simp [hj0, hj1, zsub, zdiv]
      · simp [hj0, hj1, zsub, zdiv]
  rw [hnan ((n-1) - 119)]
  norm_num [market_risk_score_base, flGt, oLt]

/-- C5: the position ceiling equals 0.25·(cash + shares·lastClose) multiplied
by 0.5 when the market risk score is at least 4, by 0.75 when at least 2, and
by 1 otherwise, where the score used for this thresholding is the
pre-debate-adjustment market score (the reported accumulated score adds the
debate adjustments on top of it); and for a price series flat for 60 or more
days the market risk component is 0 and the ceiling is exactly 0.25 of the
portfolio value. -/
theorem max_position_value_spec (sqrtf : ℚ → ℚ) (s252 : ℚ) (prices : List ℚ)
    (cash : ℚ) (stock : ℤ) (d : DebateData) (n : ℕ) (p : ℚ)
    (hn : 60 ≤ n) (hp : 0 < p) (h0 : sqrtf 0 = 0) :
    (risk_management sqrtf s252 prices cash stock d).max_position_size
      = max_position_size_calc
          (cash + (stock : ℚ) * prices.getD (prices.length - 1) 0)
          (risk_metrics_base_score sqrtf s252 prices)
  ∧ (∀ (sc : ℕ) (total : ℚ), max_position_size_calc total sc
      = total * (1/4) * (if 4 ≤ sc then 1/2 else if 2 ≤ sc then 3/4 else 1))
  ∧ (risk_management sqrtf s252 prices cash stock d).market_risk_score
      = risk_metrics_base_score sqrtf s252 prices
        + debate_adjustment d.bull_confidence d.bear_confidence d.confidence
  ∧ risk_metrics_base_score sqrtf s252 (List.replicate n p) = 0
  ∧ (risk_management sqrtf s252 (List.replicate n p) cash stock d).max_position_size
      = (cash + (stock : ℚ) * p) * (1/4) := by
  have hbase := risk_metrics_base_score_replicate h0 s252 hn hp
  refine ⟨rfl, ?_, rfl, hbase, ?_⟩
  · intro sc total
    unfold max_position_size_calc
    split_ifs <;> ring
  · have hlast : (List.replicate n p).getD ((List.replicate n p).length - 1) 0 = p := by
      rw [List.length_replicate, List.getD_eq_getElem?_getD,
        List.getElem?_replicate, if_pos (by omega)]
      rfl
    have hmp : (risk_management sqrtf s252 (List.replicate n p) cash stock d).max_position_size
        = max_position_size_calc
            (cash + (stock : ℚ) * ((List.replicate n p).getD ((List.replicate n p).length - 1) 0))
            (risk_metrics_base_score sqrtf s252 (List.replicate n p)) := rfl
    rw [hmp, hlast, hbase]
    unfold max_position_size_calc
    norm_num

/-- Witness for `max_position_value_spec` on a 60-day flat price series. -/
theorem max_position_value_spec_witness :
    risk_metrics_base_score (fun _ => 0) 0 (List.replicate 60 1) = 0 :=
  (max_position_value_spec (fun _ => 0) 0 [] 0 0 ⟨"neutral", 0, 0, 0⟩ 60 1
    (by norm_num) (by norm_num) rfl).2.2.2.1
